import Mathlib

/-!
Verification development for the BotFactory webhook/message-pipeline code.

Shallow embedding conventions:
* Python `str` values are Lean `String`s; byte strings are `List Nat`
  (each element < 256), obtained from strings by UTF-8 encoding as
  Python's `str.encode()` does.
* 32-bit machine arithmetic is `Nat` arithmetic reduced `% 2^32`.
* A Python function that may raise is embedded as `Except String α`;
  a `try/except` block is a `match` on the embedded body's outcome.
* External effects (database rows, the generation backend's outcome,
  `uuid.uuid4()`, `datetime.utcnow()`) are explicit parameters.
-/

namespace BotFactory

/-! ## MD5 (needed by `ClickProvider.verify_webhook`)

Faithful executable implementation of MD5 (RFC 1321) over byte lists,
standing in for Python's `hashlib.md5(...).hexdigest()`. -/

def M32 : Nat := 4294967296

/-- Rotate a 32-bit word left by `n` (0 ≤ n < 32). -/
def rotl32 (x n : Nat) : Nat := ((x <<< n) ||| (x >>> (32 - n))) % M32

/-- Bitwise complement of a 32-bit word. -/
def not32 (x : Nat) : Nat := x ^^^ 4294967295

/-- The 64 MD5 round constants, `K[i] = floor(2^32 * |sin(i+1)|)`. -/
def md5K : List Nat :=
  [3614090360, 3905402710, 606105819, 3250441966, 4118548399, 1200080426,
   2821735955, 4249261313, 1770035416, 2336552879, 4294925233, 2304563134,
   1804603682, 4254626195, 2792965006, 1236535329, 4129170786, 3225465664,
   643717713, 3921069994, 3593408605, 38016083, 3634488961, 3889429448,
   568446438, 3275163606, 4107603335, 1163531501, 2850285829, 4243563512,
   1735328473, 2368359562, 4294588738, 2272392833, 1839030562, 4259657740,
   2763975236, 1272893353, 4139469664, 3200236656, 681279174, 3936430074,
   3572445317, 76029189, 3654602809, 3873151461, 530742520, 3299628645,
   4096336452, 1126891415, 2878612391, 4237533241, 1700485571, 2399980690,
   4293915773, 2240044497, 1873313359, 4264355552, 2734768916, 1309151649,
   4149444226, 3174756917, 718787259, 3951481745]

/-- The 64 MD5 per-round left-rotation amounts. -/
def md5S : List Nat :=
  [7, 12, 17, 22, 7, 12, 17, 22, 7, 12, 17, 22, 7, 12, 17, 22,
   5, 9, 14, 20, 5, 9, 14, 20, 5, 9, 14, 20, 5, 9, 14, 20,
   4, 11, 16, 23, 4, 11, 16, 23, 4, 11, 16, 23, 4, 11, 16, 23,
   6, 10, 15, 21, 6, 10, 15, 21, 6, 10, 15, 21, 6, 10, 15, 21]

/-- Little-endian 32-bit word `j` of a 64-byte chunk. -/
def leWord (chunk : List Nat) (j : Nat) : Nat :=
  chunk.getD (4 * j) 0 + 256 * chunk.getD (4 * j + 1) 0 +
    65536 * chunk.getD (4 * j + 2) 0 + 16777216 * chunk.getD (4 * j + 3) 0

/-- The nonlinear function and message index for MD5 round `i`. -/
def md5FG (i b c d : Nat) : Nat × Nat :=
  if i < 16 then ((b &&& c) ||| (not32 b &&& d), i)
  else if i < 32 then ((d &&& b) ||| (not32 d &&& c), (5 * i + 1) % 16)
  else if i < 48 then (b ^^^ c ^^^ d, (3 * i + 5) % 16)
  else (c ^^^ (b ||| not32 d), (7 * i) % 16)

/-- One MD5 round applied to the state `(a, b, c, d)`. -/
def md5RoundStep (chunk : List Nat) (i : Nat)
    (st : Nat × Nat × Nat × Nat) : Nat × Nat × Nat × Nat :=
  let (a, b, c, d) := st
  let (f, g) := md5FG i b c d
  let fv := (f + a + md5K.getD i 0 + leWord chunk g) % M32
  (d, (b + rotl32 fv (md5S.getD i 0)) % M32, b, c)

/-- Run rounds `64 - fuel, …, 63` on the state. -/
def md5Rounds (chunk : List Nat) : Nat → Nat × Nat × Nat × Nat → Nat × Nat × Nat × Nat
  | 0, st => st
  | n + 1, st => md5Rounds chunk n (md5RoundStep chunk (64 - (n + 1)) st)

/-- Process one 64-byte chunk: 64 rounds then the feed-forward addition. -/
def md5Chunk (chunk : List Nat) (h : Nat × Nat × Nat × Nat) : Nat × Nat × Nat × Nat :=
  let (a0, b0, c0, d0) := h
  let (a, b, c, d) := md5Rounds chunk 64 (a0, b0, c0, d0)
  ((a0 + a) % M32, (b0 + b) % M32, (c0 + c) % M32, (d0 + d) % M32)

/-- Process `n` consecutive 64-byte chunks of `l`. -/
def md5Loop : Nat → List Nat → Nat × Nat × Nat × Nat → Nat × Nat × Nat × Nat
  | 0, _, st => st
  | n + 1, l, st => md5Loop n (l.drop 64) (md5Chunk (l.take 64) st)

/-- MD5 padding: append `0x80`, zeros to 56 mod 64, then the 64-bit
little-endian bit length. -/
def md5Pad (msg : List Nat) : List Nat :=
  let len := msg.length
  let z := (120 - ((len + 1) % 64)) % 64
  let bits := (len * 8) % 18446744073709551616
  msg ++ [128] ++ List.replicate z 0 ++
    [bits % 256, (bits >>> 8) % 256, (bits >>> 16) % 256, (bits >>> 24) % 256,
     (bits >>> 32) % 256, (bits >>> 40) % 256, (bits >>> 48) % 256,
     (bits >>> 56) % 256]

/-- Final MD5 state of a byte message. -/
def md5State (msg : List Nat) : Nat × Nat × Nat × Nat :=
  let padded := md5Pad msg
  md5Loop (padded.length / 64) padded (1732584193, 4023233417, 2562383102, 271733878)

/-- One lowercase hex digit. -/
def hexDigit (n : Nat) : Char :=
  if n < 10 then Char.ofNat (48 + n) else Char.ofNat (87 + n)

/-- Two lowercase hex digits of a byte. -/
def byteHex (b : Nat) : String :=
  String.mk [hexDigit (b / 16), hexDigit (b % 16)]

/-- Lowercase hex of a 32-bit word serialized little-endian byte-wise. -/
def wordLEHex (w : Nat) : String :=
  byteHex (w % 256) ++ byteHex ((w >>> 8) % 256) ++
    byteHex ((w >>> 16) % 256) ++ byteHex ((w >>> 24) % 256)

/-- `hashlib.md5(msg).hexdigest()`: the lowercase 32-hex-char MD5 digest. -/
def md5Hex (msg : List Nat) : String :=
  let (a, b, c, d) := md5State msg
  wordLEHex a ++ wordLEHex b ++ wordLEHex c ++ wordLEHex d

/-- UTF-8 encoding of one Unicode code point, as Python's `str.encode()`. -/
def utf8Char (c : Nat) : List Nat :=
  if c < 128 then [c]
  else if c < 2048 then [192 ||| (c >>> 6), 128 ||| (c &&& 63)]
  else if c < 65536 then
    [224 ||| (c >>> 12), 128 ||| ((c >>> 6) &&& 63), 128 ||| (c &&& 63)]
  else
    [240 ||| (c >>> 18), 128 ||| ((c >>> 12) &&& 63),
     128 ||| ((c >>> 6) &&& 63), 128 ||| (c &&& 63)]

/-- `s.encode()`: UTF-8 bytes of a string. -/
def strBytes (s : String) : List Nat :=
  (s.data.map (fun c => utf8Char c.toNat)).flatten

/-! Sanity checks of the MD5 implementation against RFC 1321 test vectors. -/

theorem md5_empty_vector : md5Hex (strBytes "") = "d41d8cd98f00b204e9800998ecf8427e" := by
  decide

theorem md5_abc_vector : md5Hex (strBytes "abc") = "900150983cd24fb0d6963f7d28e17f72" := by
  decide

/-! ## Python value model

A small model of the Python values that flow through the webhook
handlers: strings, ints, booleans, `None`, and (for JSON-RPC bodies)
nested dicts.  `dget d k` is `d.get(k)` (defaulting to `None`);
`dgetD` is `d.get(k, default)`. -/

inductive PyVal where
  | s (v : String)
  | i (v : Int)
  | b (v : Bool)
  | none
  | dict (fields : List (String × PyVal))

/-- `d.get(k)`: `None` when the key is absent. -/
def dget (d : List (String × PyVal)) (k : String) : PyVal :=
  (d.lookup k).getD PyVal.none

/-! ## ClickProvider (src/services/payments/click.py)

Click webhook payloads arrive form-encoded, so every field value is a
string; `str(payload.get(field, ""))` is therefore the field's string,
or `""` when the field is missing. -/

/-- `payload.get(key, "")` on a form-encoded (string-valued) payload. -/
def formGet (payload : List (String × String)) (key : String) : String :=
  (payload.lookup key).getD ""

/-- The string whose MD5 is compared against `sign_string`, exactly as
`ClickProvider.verify_webhook` concatenates it. -/
def clickSignString (secretKey : String) (payload : List (String × String)) : String :=
  formGet payload "click_trans_id" ++
    formGet payload "service_id" ++
    secretKey ++
    formGet payload "merchant_trans_id" ++
    formGet payload "amount" ++
    formGet payload "action" ++
    formGet payload "sign_time"

/-- `ClickProvider.verify_webhook`: recompute the MD5 signature and
compare with the caller-supplied one. -/
def clickVerifyWebhook (secretKey : String) (payload : List (String × String))
    (signature : String) : Bool :=
  signature == md5Hex (strBytes (clickSignString secretKey payload))

/-- The digest the SPEC describes (written from the spec's words, for
comparison with `clickVerifyWebhook`): the lowercase hex MD5 of the
string concatenation `click_trans_id + service_id + secret_key +
merchant_trans_id + amount + action + sign_time`, each payload field
coerced to a string with missing fields becoming the empty string. -/
def specClickDigest (secretKey : String) (payload : List (String × String)) : String :=
  md5Hex (strBytes (String.join
    [formGet payload "click_trans_id", formGet payload "service_id", secretKey,
     formGet payload "merchant_trans_id", formGet payload "amount",
     formGet payload "action", formGet payload "sign_time"]))

/-- `ClickProvider._prepare_transaction` (action = 0). -/
def clickPrepare (payload : List (String × PyVal)) : List (String × PyVal) :=
  [("click_trans_id", dget payload "click_trans_id"),
   ("merchant_trans_id", dget payload "merchant_trans_id"),
   ("merchant_prepare_id", dget payload "merchant_trans_id"),
   ("error", PyVal.i 0),
   ("error_note", PyVal.s "Success")]

/-- `ClickProvider._complete_transaction` (action = 1). -/
def clickComplete (payload : List (String × PyVal)) : List (String × PyVal) :=
  [("click_trans_id", dget payload "click_trans_id"),
   ("merchant_trans_id", dget payload "merchant_trans_id"),
   ("merchant_confirm_id", dget payload "merchant_trans_id"),
   ("error", PyVal.i 0),
   ("error_note", PyVal.s "Success")]

/-- `ClickProvider.handle_webhook`: dispatch on the integer `action`
field (the webhook endpoints merge `{"action": 0}` / `{"action": 1}`
into the form payload before calling this).  The handler bodies are
total, so the surrounding `except` clause (error −9) is unreachable in
this embedding. -/
def clickHandleWebhook (payload : List (String × PyVal)) : List (String × PyVal) :=
  match dget payload "action" with
  | PyVal.i 0 => clickPrepare payload
  | PyVal.i 1 => clickComplete payload
  | _ => [("error", PyVal.i (-3)), ("error_note", PyVal.s "Invalid action")]

/-! ## PayMeProvider (src/services/payments/payme.py)

`handle_webhook` reads `method`, `params` and `id` from the JSON-RPC
payload, dispatches on the method string, and converts any exception
from a handler into a −31001 error envelope.  `datetime.utcnow()` (used
for `perform_time` / `cancel_time`) is the explicit `nowMs` parameter. -/

/-- `params.get(...)` treats a missing or non-dict `params` as empty. -/
def dgetDict (d : List (String × PyVal)) (k : String) : List (String × PyVal) :=
  match dget d k with
  | PyVal.dict fields => fields
  | _ => []

/-- `PayMeProvider._error_response`: JSON-RPC error envelope with the
message duplicated under the uz/ru/en language keys. -/
def paymeErrorResponse (code : Int) (message : String) (requestId : PyVal) : PyVal :=
  PyVal.dict
    [("jsonrpc", PyVal.s "2.0"),
     ("id", requestId),
     ("error", PyVal.dict
       [("code", PyVal.i code),
        ("message", PyVal.dict
          [("uz", PyVal.s message), ("ru", PyVal.s message),
           ("en", PyVal.s message)])])]

/-- `PayMeProvider._check_perform_transaction`: the order/amount
validation is a TODO in the source; it unconditionally allows. -/
def paymeCheckPerform (params : List (String × PyVal)) (requestId : PyVal) : PyVal :=
  PyVal.dict
    [("jsonrpc", PyVal.s "2.0"),
     ("id", requestId),
     ("result", PyVal.dict [("allow", PyVal.b true)])]

/-- `PayMeProvider._create_transaction`. -/
def paymeCreate (params : List (String × PyVal)) (requestId : PyVal) : PyVal :=
  PyVal.dict
    [("jsonrpc", PyVal.s "2.0"),
     ("id", requestId),
     ("result", PyVal.dict
       [("create_time", dget params "time"),
        ("transaction", dget params "id"),
        ("state", PyVal.i 1)])]

/-- `PayMeProvider._perform_transaction`. -/
def paymePerform (nowMs : Int) (params : List (String × PyVal)) (requestId : PyVal) : PyVal :=
  PyVal.dict
    [("jsonrpc", PyVal.s "2.0"),
     ("id", requestId),
     ("result", PyVal.dict
       [("transaction", dget params "id"),
        ("perform_time", PyVal.i nowMs),
        ("state", PyVal.i 2)])]

/-- `PayMeProvider._cancel_transaction`. -/
def paymeCancel (nowMs : Int) (params : List (String × PyVal)) (requestId : PyVal) : PyVal :=
  PyVal.dict
    [("jsonrpc", PyVal.s "2.0"),
     ("id", requestId),
     ("result", PyVal.dict
       [("transaction", dget params "id"),
        ("cancel_time", PyVal.i nowMs),
        ("state", PyVal.i (-1))])]

/-- `PayMeProvider._check_transaction`. -/
def paymeCheckTx (params : List (String × PyVal)) (requestId : PyVal) : PyVal :=
  PyVal.dict
    [("jsonrpc", PyVal.s "2.0"),
     ("id", requestId),
     ("result", PyVal.dict
       [("create_time", PyVal.i 0),
        ("perform_time", PyVal.i 0),
        ("cancel_time", PyVal.i 0),
        ("transaction", dget params "id"),
        ("state", PyVal.i 1),
        ("reason", PyVal.none)])]

/-- The five method names `handle_webhook` recognizes. -/
def paymeKnownMethod (method : PyVal) : Bool :=
  match method with
  | PyVal.s "CheckPerformTransaction" => true
  | PyVal.s "CreateTransaction" => true
  | PyVal.s "PerformTransaction" => true
  | PyVal.s "CancelTransaction" => true
  | PyVal.s "CheckTransaction" => true
  | _ => false

/-- The `try` body of `PayMeProvider.handle_webhook`: method dispatch.
The concrete handlers are total, so the body never raises; the result
type keeps the raising possibility only so the `except` clause below
has its source shape. -/
def paymeDispatch (nowMs : Int) (payload : List (String × PyVal)) : Except String PyVal :=
  let params := dgetDict payload "params"
  let requestId := dget payload "id"
  match dget payload "method" with
  | PyVal.s "CheckPerformTransaction" => Except.ok (paymeCheckPerform params requestId)
  | PyVal.s "CreateTransaction" => Except.ok (paymeCreate params requestId)
  | PyVal.s "PerformTransaction" => Except.ok (paymePerform nowMs params requestId)
  | PyVal.s "CancelTransaction" => Except.ok (paymeCancel nowMs params requestId)
  | PyVal.s "CheckTransaction" => Except.ok (paymeCheckTx params requestId)
  | _ => Except.ok (paymeErrorResponse (-32601) "Method not found" requestId)

/-- The `except Exception` clause of `handle_webhook`: an exception
`e` raised by the body becomes `_error_response(-31001, str(e), id)`. -/
def paymeCatch (requestId : PyVal) : Except String PyVal → PyVal
  | Except.ok r => r
  | Except.error e => paymeErrorResponse (-31001) e requestId

/-- `PayMeProvider.handle_webhook`. -/
def paymeHandleWebhook (nowMs : Int) (payload : List (String × PyVal)) : PyVal :=
  paymeCatch (dget payload "id") (paymeDispatch nowMs payload)

/-! ## ChatService (src/services/chat/service.py)

The database is embedded as the list of `ChatHistory` rows in insertion
order; `created_at` is seconds as an integer and `datetime.utcnow()` is
the explicit `now` parameter.  `uuid.uuid4()` is the explicit `freshId`
parameter.  A SQL `ORDER BY created_at DESC` is realized as insertion
sort under `newerFirst`.  Fields not read by any embedded operation
(`message_type`, `media_url`, `context_ids`, token metadata) are
omitted from the row model; the knowledge-base search and the bot
statistics bump touch only those omitted parts of the state. -/

inductive MessageRole where
  | user
  | assistant
  | system
deriving DecidableEq, Repr

structure ChatMsg where
  bot_id : Nat
  platform_user_id : String
  session_id : String
  role : MessageRole
  content : String
  created_at : Int
deriving DecidableEq, Repr

/-- `ORDER BY created_at DESC`: `a` sorts before `b`. -/
def newerFirst (a b : ChatMsg) : Prop := b.created_at ≤ a.created_at

instance : DecidableRel newerFirst :=
  fun a b => inferInstanceAs (Decidable (b.created_at ≤ a.created_at))

instance : IsTotal ChatMsg newerFirst :=
  ⟨fun a b => le_total b.created_at a.created_at⟩

instance : IsTrans ChatMsg newerFirst :=
  ⟨fun _ _ _ hab hbc => le_trans hbc hab⟩

/-- The WHERE clause shared by the chat queries:
`bot_id == self.bot.id AND platform_user_id == platform_user_id`. -/
def pairMatch (botId : Nat) (userId : String) (m : ChatMsg) : Bool :=
  m.bot_id == botId && m.platform_user_id == userId

/-- `ChatService._get_or_create_session`: reuse the session id of the
newest row for the pair newer than `now − 30 min`, else the fresh
uuid. -/
def getOrCreateSession (db : List ChatMsg) (botId : Nat) (userId : String)
    (now : Int) (freshId : String) : String :=
  let thirtyMinAgo := now - 1800
  let rows := List.insertionSort newerFirst
    (db.filter (fun m => pairMatch botId userId m && decide (thirtyMinAgo < m.created_at)))
  match rows.head? with
  | some m => m.session_id
  | Option.none => freshId

/-- `"user" if msg.role == MessageRole.USER else "assistant"`. -/
def roleStr (r : MessageRole) : String :=
  if r = MessageRole.user then "user" else "assistant"

/-- `ChatService._get_chat_history`: newest-first query limited to
`limit` rows, then reversed into oldest-first `{role, content}` pairs. -/
def getChatHistory (db : List ChatMsg) (botId : Nat) (userId : String)
    (limit : Nat) : List (String × String) :=
  let messages := (List.insertionSort newerFirst (db.filter (pairMatch botId userId))).take limit
  messages.reverse.map (fun m => (roleStr m.role, m.content))

/-! ## GeminiService (src/services/ai/gemini.py)

The outcome of the `generate_content` call is the explicit `backend`
parameter: an exception, or a response whose `text` is `None` or a
string.  Prompt construction does not affect control flow and is not
modelled. -/

def geminiFallbacks : List (String × String) :=
  [("uz", "Kechirasiz, hozir javob bera olmayapman. Iltimos, keyinroq qayta urinib ko\x27ring."),
   ("ru", "Извините, не могу ответить сейчас. Пожалуйста, попробуйте позже."),
   ("en", "Sorry, I can\x27t respond right now. Please try again later.")]

/-- `GeminiService._get_fallback_response`:
`fallbacks.get(language, fallbacks["uz"])`. -/
def geminiGetFallback (language : String) : String :=
  (geminiFallbacks.lookup language).getD ((geminiFallbacks.lookup "uz").getD "")

/-- `GeminiService.generate_response`.  The `try` body: `_configure`
(raises when no API key is set), the backend call (its exception
re-raised by the `except` clause as `AIServiceError`), the empty-text
fallback, or the generated text.  The `except Exception` clause wraps
any exception `e` into `AIServiceError("AI xatosi: " + str(e))`. -/
def geminiGenerateResponse (hasApiKey : Bool)
    (backend : Except String (Option String)) (language : String) :
    Except String String :=
  let body : Except String String :=
    if hasApiKey = false then Except.error "GOOGLE_API_KEY sozlanmagan"
    else
      match backend with
      | Except.error e => Except.error e
      | Except.ok t =>
        if t.getD "" = "" then Except.ok (geminiGetFallback language)
        else Except.ok (t.getD "")
  match body with
  | Except.ok r => Except.ok r
  | Except.error e => Except.error ("AI xatosi: " ++ e)

def chatFallbacks : List (String × String) :=
  [("uz", "Kechirasiz, hozir javob bera olmayapman. Iltimos, keyinroq qayta urinib ko\x27ring."),
   ("ru", "Извините, не могу ответить сейчас. Попробуйте позже."),
   ("en", "Sorry, I can\x27t respond right now. Please try again later.")]

/-- The static language table of `ChatService._get_fallback_response`. -/
def chatStaticFallback (language : String) : String :=
  (chatFallbacks.lookup language).getD ((chatFallbacks.lookup "uz").getD "")

/-- `ChatService._get_fallback_response`: a truthy
`settings["fallback_message"]` wins, else the static language table. -/
def chatGetFallback (settingsFallback : Option String) (language : String) : String :=
  match settingsFallback with
  | some f => if f = "" then chatStaticFallback language else f
  | Option.none => chatStaticFallback language

/-- `ChatService.process_message`.  The `try` body: resolve the
session, save the inbound row, fetch history, generate; on success save
the assistant row.  The `except Exception` clause returns
`_get_fallback_response()` — note the inbound row is already committed
when generation raises, so the error path keeps it. -/
def processMessage (db : List ChatMsg) (botId : Nat) (language : String)
    (settingsFallback : Option String) (hasApiKey : Bool)
    (backend : Except String (Option String)) (userId : String)
    (text : String) (now : Int) (freshId : String) :
    String × List ChatMsg :=
  let sessionId := getOrCreateSession db botId userId now freshId
  let db1 := db ++ [⟨botId, userId, sessionId, MessageRole.user, text, now⟩]
  let _history := getChatHistory db1 botId userId 10
  match geminiGenerateResponse hasApiKey backend language with
  | Except.ok response =>
    (response, db1 ++ [⟨botId, userId, sessionId, MessageRole.assistant, response, now⟩])
  | Except.error _ => (chatGetFallback settingsFallback language, db1)

/-! ## TelegramBot (src/services/bots/telegram.py)

Each `_make_request` outcome is an explicit `Except` parameter;
`hasImage` / `hasVoice` are the presence of `response.image_url` /
`response.audio_url`. -/

structure SendTrace where
  textIssued : Bool
  imageIssued : Bool
  voiceIssued : Bool
  result : Bool
deriving DecidableEq, Repr

/-- `TelegramBot.send_message`: one `try` block issuing `sendMessage`,
then `sendPhoto` if an image is attached, then `sendVoice` if audio is
attached; any exception ends the block and returns `False`. -/
def telegramSendMessage (textCall imageCall voiceCall : Except String Unit)
    (hasImage hasVoice : Bool) : SendTrace :=
  match textCall with
  | Except.error _ => ⟨true, false, false, false⟩
  | Except.ok _ =>
    if hasImage then
      match imageCall with
      | Except.error _ => ⟨true, true, false, false⟩
      | Except.ok _ =>
        if hasVoice then
          match voiceCall with
          | Except.error _ => ⟨true, true, true, false⟩
          | Except.ok _ => ⟨true, true, true, true⟩
        else ⟨true, true, false, true⟩
    else
      if hasVoice then
        match voiceCall with
        | Except.error _ => ⟨true, false, true, false⟩
        | Except.ok _ => ⟨true, false, true, true⟩
      else ⟨true, false, false, true⟩

structure TgPhoto where
  file_id : String
  file_size : Option Int
deriving DecidableEq, Repr

/-- `x.get("file_size", 0)`. -/
def photoSizeKey (p : TgPhoto) : Int := p.file_size.getD 0

/-- Python's `max(photos, key=...)`: scan keeping the current maximum,
replacing it only on a strictly larger key (the first maximal element
is kept); raises on an empty list, which the source guards against. -/
def pyMaxBy (key : TgPhoto → Int) : List TgPhoto → Option TgPhoto
  | [] => Option.none
  | x :: xs => some (xs.foldl (fun best y => if key y > key best then y else best) x)

/-- The photo selection of `TelegramBot._handle_message`:
`max(photos, key=lambda x: x.get("file_size", 0))`. -/
def selectLargestPhoto (photos : List TgPhoto) : Option TgPhoto :=
  pyMaxBy photoSizeKey photos

/-! ## Webhook endpoints (src/api/v1/webhooks.py)

`parsed` is the body-parsing outcome (`none` = malformed JSON/form);
the bot lookup and the PayMe Basic-auth check are the explicit
`botFound` / `authOk` parameters.  An uncaught exception in a handler
surfaces as the framework's HTTP 500; within the Telegram message path
every step catches its own exceptions, while the callback path's
`answerCallbackQuery` call does not. -/

structure HttpResponse where
  status : Nat
  body : PyVal

inductive TgUpdateKind where
  | message (text : Option String)
  | callback
  | other

/-- `telegram_webhook`: 400 on malformed JSON, 404 (`HTTPException`)
when no active Telegram bot matches the token, else process and answer
`{"ok": True}`. -/
def telegramWebhookEndpoint (parsed : Option TgUpdateKind) (botFound : Bool)
    (answerCall : Except String Unit) : HttpResponse :=
  match parsed with
  | Option.none => ⟨400, PyVal.s "Invalid JSON payload"⟩
  | some upd =>
    if botFound = false then ⟨404, PyVal.s "Bot not found"⟩
    else
      match upd with
      | TgUpdateKind.message _ => ⟨200, PyVal.dict [("ok", PyVal.b true)]⟩
      | TgUpdateKind.callback =>
        match answerCall with
        | Except.ok _ => ⟨200, PyVal.dict [("ok", PyVal.b true)]⟩
        | Except.error e => ⟨500, PyVal.s e⟩
      | TgUpdateKind.other => ⟨200, PyVal.dict [("ok", PyVal.b true)]⟩

/-- `payme_webhook`: 400 on malformed JSON; otherwise always 200 with a
JSON-RPC body (auth-failure envelope −32504, or the handler result). -/
def paymeWebhookEndpoint (parsed : Option (List (String × PyVal)))
    (authOk : Bool) (nowMs : Int) : HttpResponse :=
  match parsed with
  | Option.none => ⟨400, PyVal.s "Invalid JSON payload"⟩
  | some payload =>
    if authOk = false then
      ⟨200, PyVal.dict
        [("jsonrpc", PyVal.s "2.0"),
         ("id", dget payload "id"),
         ("error", PyVal.dict
           [("code", PyVal.i (-32504)),
            ("message", PyVal.dict [("uz", PyVal.s "Avtorizatsiya xatosi")])])]⟩
    else ⟨200, paymeHandleWebhook nowMs payload⟩

/-- Form string values lifted into the merged dict passed to
`click_provider.handle_webhook`. -/
def liftForm (form : List (String × String)) : List (String × PyVal) :=
  form.map (fun kv => (kv.1, PyVal.s kv.2))

/-- `click_prepare_webhook` / `click_complete_webhook` (`actionVal` is
0 or 1): malformed form → 200 `{error:-8}`, bad signature → 200
`{error:-1}`, else 200 with the handler result for
`{**payload, "action": actionVal}`. -/
def clickWebhookEndpoint (actionVal : Int) (secretKey : String)
    (parsedForm : Option (List (String × String))) : HttpResponse :=
  match parsedForm with
  | Option.none =>
    ⟨200, PyVal.dict [("error", PyVal.i (-8)), ("error_note", PyVal.s "Invalid request")]⟩
  | some form =>
    if clickVerifyWebhook secretKey form (formGet form "sign_string") = false then
      ⟨200, PyVal.dict [("error", PyVal.i (-1)), ("error_note", PyVal.s "Sign check failed")]⟩
    else
      ⟨200, PyVal.dict (clickHandleWebhook (("action", PyVal.i actionVal) :: liftForm form))⟩

/-! ## Claim theorems -/

/-- C2: `ClickProvider.verify_webhook` returns true iff the supplied
signature equals the lowercase hex MD5 digest of the concatenation
`click_trans_id + service_id + secret_key + merchant_trans_id + amount
+ action + sign_time`, each field coerced to a string with missing
fields becoming the empty string, in exactly that order. -/
theorem click_verify_webhook_iff_md5 (secretKey : String)
    (payload : List (String × String)) (signature : String) :
    clickVerifyWebhook secretKey payload signature = true ↔
      signature = specClickDigest secretKey payload := by
  have harg : clickSignString secretKey payload =
      String.join
        [formGet payload "click_trans_id", formGet payload "service_id", secretKey,
         formGet payload "merchant_trans_id", formGet payload "amount",
         formGet payload "action", formGet payload "sign_time"] := by
    simp [clickSignString, String.join, String.append_assoc]
  rw [clickVerifyWebhook, specClickDigest, ← harg, beq_iff_eq]

/-- Sanity: on a concrete sample payload the recomputed digest matches
the value produced by an independent MD5 implementation
(`hashlib.md5` over the same concatenation), and a permuted field
order would not. -/
theorem click_signature_sample :
    clickVerifyWebhook "secret_k"
        [("click_trans_id", "12345"), ("service_id", "987"),
         ("merchant_trans_id", "ABC"), ("amount", "50000"), ("action", "1"),
         ("sign_time", "70001202401011200")]
        "87bc543f4ab31b15ad346ff02d44dac1" = true ∧
      clickVerifyWebhook "secret_k"
        [("click_trans_id", "987"), ("service_id", "12345"),
         ("merchant_trans_id", "ABC"), ("amount", "50000"), ("action", "1"),
         ("sign_time", "70001202401011200")]
        "87bc543f4ab31b15ad346ff02d44dac1" = false := by decide

/-- C10: for the merged payloads the webhook endpoints hand to
`ClickProvider.handle_webhook`, Prepare (action 0) echoes the request's
`merchant_trans_id` as `merchant_prepare_id` and Complete (action 1)
echoes it as `merchant_confirm_id`, both succeeding with `error` 0 — no
distinct prepare/confirm identifier is minted. -/
theorem click_echoes_merchant_trans_id (p : List (String × PyVal)) :
    (clickHandleWebhook (("action", PyVal.i 0) :: p)).lookup "merchant_prepare_id" =
        some (dget p "merchant_trans_id") ∧
      (clickHandleWebhook (("action", PyVal.i 0) :: p)).lookup "error" = some (PyVal.i 0) ∧
      (clickHandleWebhook (("action", PyVal.i 1) :: p)).lookup "merchant_confirm_id" =
        some (dget p "merchant_trans_id") ∧
      (clickHandleWebhook (("action", PyVal.i 1) :: p)).lookup "error" = some (PyVal.i 0) := by
  refine ⟨?_, ?_, ?_, ?_⟩ <;>
    simp [clickHandleWebhook, clickPrepare, clickComplete, dget, List.lookup]

/-- C9 (documents the code gap): `PayMeProvider.handle_webhook` answers
`CheckPerformTransaction` with `result.allow = true` even when
`account.order_id` names a nonexistent order — the order/amount
validation is an unimplemented TODO in the source. -/
theorem payme_check_perform_allows_nonexistent_order :
    paymeHandleWebhook 0
        [("method", PyVal.s "CheckPerformTransaction"),
         ("id", PyVal.i 1),
         ("params", PyVal.dict
           [("amount", PyVal.i 500000),
            ("account", PyVal.dict [("order_id", PyVal.s "no-such-order")])])] =
      PyVal.dict
        [("jsonrpc", PyVal.s "2.0"), ("id", PyVal.i 1),
         ("result", PyVal.dict [("allow", PyVal.b true)])] := by
  rfl

/-- C4 counterexample: with the primary text call succeeding and an
image and a voice attachment present, a failing `sendPhoto` call makes
`send_message` skip the `sendVoice` call entirely and return `False`,
so `send` does not return false only when the primary text call fails,
and a failed call does block the later ones. -/
theorem telegram_send_counterexample :
    telegramSendMessage (Except.ok ()) (Except.error "sendPhoto failed")
        (Except.ok ()) true true =
      ⟨true, true, false, false⟩ := by
  rfl

/-- Success of an embedded provider call. -/
def callOk (e : Except String Unit) : Bool :=
  match e with
  | Except.ok _ => true
  | Except.error _ => false

/-- C4 (amended): the three Telegram transmissions are issued
sequentially inside one guarded block: the image call is issued only
when the text call succeeded, the voice call only when every earlier
call succeeded, and `send_message` returns true iff every call it was
due to issue succeeded (so a failing image or voice call also makes it
return false). -/
theorem telegram_send_sequential (textCall imageCall voiceCall : Except String Unit)
    (hasImage hasVoice : Bool) :
    (telegramSendMessage textCall imageCall voiceCall hasImage hasVoice).result =
        (callOk textCall && (!hasImage || callOk imageCall) &&
          (!hasVoice || callOk voiceCall)) ∧
      (telegramSendMessage textCall imageCall voiceCall hasImage hasVoice).imageIssued =
        (callOk textCall && hasImage) ∧
      (telegramSendMessage textCall imageCall voiceCall hasImage hasVoice).voiceIssued =
        (callOk textCall && (!hasImage || callOk imageCall) && hasVoice) := by
  cases textCall <;> cases imageCall <;> cases voiceCall <;>
    cases hasImage <;> cases hasVoice <;> exact ⟨rfl, rfl, rfl⟩

/-- C5 counterexample: two photo variants tie on `file_size`; Python's
`max` keeps the first maximal element, so the decoder selects the FIRST
variant in list order, not the last one as claimed. -/
theorem telegram_photo_tie_counterexample :
    selectLargestPhoto [⟨"first", some 100⟩, ⟨"last", some 100⟩] =
        some ⟨"first", some 100⟩ ∧
      selectLargestPhoto [⟨"first", some 100⟩, ⟨"last", some 100⟩] ≠
        some ⟨"last", some 100⟩ := by
  decide

/-- All later elements have keys no larger than the accumulator: the
scan keeps the accumulator. -/
theorem pyMaxBy_fold_keep (p : TgPhoto) (post : List TgPhoto)
    (hpost : ∀ q ∈ post, photoSizeKey q ≤ photoSizeKey p) :
    post.foldl (fun best y => if photoSizeKey y > photoSizeKey best then y else best) p = p := by
  induction post with
  | nil => rfl
  | cons a post ih =>
    have ha : ¬ photoSizeKey a > photoSizeKey p := not_lt.mpr (hpost a (by simp))
    simp only [List.foldl_cons, if_neg ha]
    exact ih (fun q hq => hpost q (by simp [hq]))

/-- The scan run from an accumulator strictly below the first maximum
reaches that maximum. -/
theorem pyMaxBy_fold_reach (p : TgPhoto) (post : List TgPhoto)
    (hpost : ∀ q ∈ post, photoSizeKey q ≤ photoSizeKey p) :
    ∀ (pre : List TgPhoto) (b : TgPhoto), photoSizeKey b < photoSizeKey p →
      (∀ q ∈ pre, photoSizeKey q < photoSizeKey p) →
      (pre ++ p :: post).foldl
        (fun best y => if photoSizeKey y > photoSizeKey best then y else best) b = p := by
  intro pre
  induction pre with
  | nil =>
    intro b hb _
    simp only [List.nil_append, List.foldl_cons, if_pos hb]
    exact pyMaxBy_fold_keep p post hpost
  | cons a pre ih =>
    intro b hb hpre
    simp only [List.cons_append, List.foldl_cons]
    by_cases hab : photoSizeKey a > photoSizeKey b
    · simp only [if_pos hab]
      exact ih a (hpre a (by simp)) (fun q hq => hpre q (by simp [hq]))
    · simp only [if_neg hab]
      exact ih b hb (fun q hq => hpre q (by simp [hq]))

/-- C5 (amended): the decoder selects the variant with the largest
`file_size` (missing sizes count as 0); when several variants tie for
the maximum, the FIRST such variant in list order wins (Python's `max`
replaces the running maximum only on a strictly larger key). -/
theorem telegram_photo_first_max (pre post : List TgPhoto) (p : TgPhoto)
    (hpre : ∀ q ∈ pre, photoSizeKey q < photoSizeKey p)
    (hpost : ∀ q ∈ post, photoSizeKey q ≤ photoSizeKey p) :
    selectLargestPhoto (pre ++ p :: post) = some p := by
  cases pre with
  | nil =>
    simp only [List.nil_append, selectLargestPhoto, pyMaxBy]
    exact congrArg some (pyMaxBy_fold_keep p post hpost)
  | cons a pre =>
    simp only [List.cons_append, selectLargestPhoto, pyMaxBy]
    exact congrArg some
      (pyMaxBy_fold_reach p post hpost pre a (hpre a (by simp))
        (fun q hq => hpre q (by simp [hq])))

/-- Witness for C5 (amended) at a concrete tie: the first of the two
variants with size 9 is selected. -/
theorem telegram_photo_first_max_witness :
    selectLargestPhoto [⟨"small", some 5⟩, ⟨"big1", some 9⟩, ⟨"big2", some 9⟩] =
      some ⟨"big1", some 9⟩ :=
  telegram_photo_first_max [⟨"small", some 5⟩] [⟨"big2", some 9⟩] ⟨"big1", some 9⟩
    (by decide) (by decide)

/-- C1 counterexample: on a backend exception,
`GeminiService.generate_response` does not return the fallback — it
raises `AIServiceError` (only the empty-text case falls back there). -/
theorem gemini_generate_propagates_exception :
    geminiGenerateResponse true (Except.error "504 Deadline Exceeded") "uz" =
      Except.error "AI xatosi: 504 Deadline Exceeded" := by
  rfl

/-- C1 (amended): generation failure is never fatal to the pipeline:
`ChatService.process_message` catches the `AIServiceError` that
`generate_response` re-raises on a backend exception and returns the
language-appropriate static fallback of `_get_fallback_response` (here
with no custom `fallback_message` configured), while an empty generated
text already falls back inside `generate_response` to its own static
language table; no exception propagates (the embedding of
`process_message` is a total function by the source's `except` clause). -/
theorem pipeline_fallback_on_generation_failure (db : List ChatMsg) (botId : Nat)
    (language : String) (hasApiKey : Bool) (e : String) (userId text : String)
    (now : Int) (freshId : String) :
    (processMessage db botId language Option.none hasApiKey (Except.error e)
        userId text now freshId).1 = chatStaticFallback language ∧
      (processMessage db botId language Option.none true (Except.ok Option.none)
        userId text now freshId).1 = geminiGetFallback language ∧
      (processMessage db botId language Option.none true (Except.ok (some ""))
        userId text now freshId).1 = geminiGetFallback language := by
  refine ⟨?_, ?_, ?_⟩
  · cases hasApiKey <;> rfl
  · rfl
  · rfl

/-- C8: a PayMe webhook whose `method` is none of the five known
methods gets the JSON-RPC error envelope with code −32601 and the
request's `id` echoed; and the `except` clause of `handle_webhook`
turns any exception raised by a handler into a −31001 envelope whose
message is populated under all three language keys uz, ru and en. -/
theorem payme_unknown_method_and_error_envelope :
    (∀ (nowMs : Int) (payload : List (String × PyVal)),
        paymeKnownMethod (dget payload "method") = false →
          paymeHandleWebhook nowMs payload =
            paymeErrorResponse (-32601) "Method not found" (dget payload "id")) ∧
      (∀ (e : String) (requestId : PyVal),
        paymeCatch requestId (Except.error e) =
          PyVal.dict
            [("jsonrpc", PyVal.s "2.0"),
             ("id", requestId),
             ("error", PyVal.dict
               [("code", PyVal.i (-31001)),
                ("message", PyVal.dict
                  [("uz", PyVal.s e), ("ru", PyVal.s e), ("en", PyVal.s e)])])]) := by
  constructor
  · intro nowMs payload h
    simp only [paymeHandleWebhook, paymeDispatch]
    split <;> simp_all [paymeKnownMethod, paymeCatch]
  · intro e requestId
    rfl

/-- Witness for C8 at a concrete unknown method and a concrete
exception message. -/
theorem payme_unknown_method_witness :
    paymeHandleWebhook 0 [("method", PyVal.s "GetStatement"), ("id", PyVal.i 7)] =
        paymeErrorResponse (-32601) "Method not found" (PyVal.i 7) ∧
      paymeCatch (PyVal.i 7) (Except.error "division by zero") =
        PyVal.dict
          [("jsonrpc", PyVal.s "2.0"),
           ("id", PyVal.i 7),
           ("error", PyVal.dict
             [("code", PyVal.i (-31001)),
              ("message", PyVal.dict
                [("uz", PyVal.s "division by zero"),
                 ("ru", PyVal.s "division by zero"),
                 ("en", PyVal.s "division by zero")])])] := by
  constructor
  · exact payme_unknown_method_and_error_envelope.1 0
      [("method", PyVal.s "GetStatement"), ("id", PyVal.i 7)] (by decide)
  · exact payme_unknown_method_and_error_envelope.2 "division by zero" (PyVal.i 7)

/-- C6: session resolution reuses the session id of the strictly most
recent stored row for the (bot, user) pair when that row is inside the
30-minute window (`created_at > now − 30 min`), and returns the fresh
uuid when every row of the pair is at least 31 minutes old. -/
theorem session_resolution (db : List ChatMsg) (botId : Nat) (userId : String)
    (now : Int) (freshId : String) (m : ChatMsg) :
    (m ∈ db → m.bot_id = botId → m.platform_user_id = userId →
        now - 1800 < m.created_at →
        (∀ m' ∈ db, pairMatch botId userId m' = true → m' ≠ m →
          m'.created_at < m.created_at) →
        getOrCreateSession db botId userId now freshId = m.session_id) ∧
      ((∀ m' ∈ db, pairMatch botId userId m' = true →
          m'.created_at ≤ now - 1860) →
        getOrCreateSession db botId userId now freshId = freshId) := by
  constructor
  · intro hm hbot huser htime hmax
    simp only [getOrCreateSession]
    have hm_flt : m ∈ db.filter
        (fun x => pairMatch botId userId x && decide (now - 1800 < x.created_at)) :=
      List.mem_filter.mpr ⟨hm, by simp [pairMatch, hbot, huser, htime]⟩
    cases hrows : List.insertionSort newerFirst
        (db.filter (fun x => pairMatch botId userId x && decide (now - 1800 < x.created_at))) with
    | nil =>
      exfalso
      have : m ∈ List.insertionSort newerFirst
          (db.filter (fun x => pairMatch botId userId x && decide (now - 1800 < x.created_at))) :=
        (List.perm_insertionSort _ _).mem_iff.mpr hm_flt
      rw [hrows] at this
      exact absurd this (List.not_mem_nil m)
    | cons h t =>
      simp only [List.head?_cons]
      have hsorted := List.sorted_insertionSort newerFirst
        (db.filter (fun x => pairMatch botId userId x && decide (now - 1800 < x.created_at)))
      rw [hrows] at hsorted
      have hh_flt : h ∈ db.filter
          (fun x => pairMatch botId userId x && decide (now - 1800 < x.created_at)) := by
        have : h ∈ List.insertionSort newerFirst
            (db.filter (fun x => pairMatch botId userId x && decide (now - 1800 < x.created_at))) := by
          rw [hrows]; exact List.mem_cons_self h t
        exact (List.perm_insertionSort _ _).mem_iff.mp this
      have hm_rows : m ∈ h :: t := by
        have : m ∈ List.insertionSort newerFirst
            (db.filter (fun x => pairMatch botId userId x && decide (now - 1800 < x.created_at))) :=
          (List.perm_insertionSort _ _).mem_iff.mpr hm_flt
        rwa [hrows] at this
      have hhm : h = m := by
        by_contra hne
        obtain ⟨hh_db, hh_cond⟩ := List.mem_filter.mp hh_flt
        have hh_pair : pairMatch botId userId h = true := Bool.and_elim_left hh_cond
        have hlt : h.created_at < m.created_at := hmax h hh_db hh_pair hne
        rcases List.mem_cons.mp hm_rows with hme | hmt
        · exact hne hme.symm
        · have hle : newerFirst h m := ((List.sorted_cons.mp hsorted).1) m hmt
          exact absurd hlt (not_lt.mpr hle)
      rw [hhm]
  · intro hall
    have hflt_nil : db.filter
        (fun x => pairMatch botId userId x && decide (now - 1800 < x.created_at)) = [] := by
      apply List.filter_eq_nil_iff.mpr
      intro a ha
      simp only [Bool.and_eq_true, decide_eq_true_eq, not_and]
      intro hpm hlt
      have := hall a ha hpm
      omega
    simp [getOrCreateSession, hflt_nil, List.insertionSort]

/-- Witness for C6: a stored row 10 minutes old is reused; once it is
31 minutes old, the fresh uuid is minted instead. -/
theorem session_resolution_witness :
    getOrCreateSession [⟨1, "u", "sess-1", MessageRole.user, "hi", 1000⟩] 1 "u" 1600
        "fresh-uuid" = "sess-1" ∧
      getOrCreateSession [⟨1, "u", "sess-1", MessageRole.user, "hi", 1000⟩] 1 "u" 2860
        "fresh-uuid" = "fresh-uuid" := by
  constructor
  · exact (session_resolution [⟨1, "u", "sess-1", MessageRole.user, "hi", 1000⟩] 1 "u"
      1600 "fresh-uuid" ⟨1, "u", "sess-1", MessageRole.user, "hi", 1000⟩).1
      (by decide) rfl rfl (by decide) (by decide)
  · exact (session_resolution [⟨1, "u", "sess-1", MessageRole.user, "hi", 1000⟩] 1 "u"
      2860 "fresh-uuid" ⟨1, "u", "sess-1", MessageRole.user, "hi", 1000⟩).2
      (by decide)

/-- Inserting an element that every list member must precede under
`newerFirst` sinks it to the end. -/
theorem orderedInsert_sinks (a : ChatMsg) (l : List ChatMsg)
    (h : ∀ b ∈ l, ¬ newerFirst a b) :
    l.orderedInsert newerFirst a = l ++ [a] := by
  induction l with
  | nil => rfl
  | cons c l ih =>
    have hc : ¬ newerFirst a c := h c (by simp)
    simp only [List.orderedInsert, if_neg hc]
    rw [ih (fun b hb => h b (by simp [hb]))]
    rfl

/-- Sorting a strictly chronologically ascending list newest-first just
reverses it. -/
theorem insertionSort_ascending_eq_reverse (l : List ChatMsg)
    (h : l.Pairwise (fun a b => a.created_at < b.created_at)) :
    List.insertionSort newerFirst l = l.reverse := by
  induction l with
  | nil => rfl
  | cons a l ih =>
    rw [List.insertionSort, ih (List.pairwise_cons.mp h).2]
    rw [orderedInsert_sinks a l.reverse]
    · rw [List.reverse_cons]
    · intro b hb
      have hab := (List.pairwise_cons.mp h).1 b (List.mem_reverse.mp hb)
      exact not_le.mpr hab

/-- C7: with the pair's rows stored in chronological order (strictly
increasing `created_at`), `_get_chat_history` returns the most recent
`limit` turns oldest-first: the newest-first query is reversed back, so
the result is the final `limit`-row suffix of the chronological row
list mapped to `{role, content}` pairs. -/
theorem recent_history_oldest_first (db : List ChatMsg) (botId : Nat)
    (userId : String) (limit : Nat)
    (hasc : (db.filter (pairMatch botId userId)).Pairwise
      (fun a b => a.created_at < b.created_at)) :
    getChatHistory db botId userId limit =
      ((db.filter (pairMatch botId userId)).drop
          ((db.filter (pairMatch botId userId)).length - limit)).map
        (fun m => (roleStr m.role, m.content)) := by
  simp only [getChatHistory]
  rw [insertionSort_ascending_eq_reverse _ hasc, List.take_reverse,
    List.reverse_reverse]

/-- Witness for C7: turns T1..T5 inserted in order come back from
`recent_history(limit=10)` exactly as T1,T2,T3,T4,T5, oldest first. -/
theorem recent_history_oldest_first_witness :
    getChatHistory
        [⟨1, "u", "s", MessageRole.user, "T1", 1⟩,
         ⟨1, "u", "s", MessageRole.assistant, "T2", 2⟩,
         ⟨1, "u", "s", MessageRole.user, "T3", 3⟩,
         ⟨1, "u", "s", MessageRole.assistant, "T4", 4⟩,
         ⟨1, "u", "s", MessageRole.user, "T5", 5⟩] 1 "u" 10 =
      [("user", "T1"), ("assistant", "T2"), ("user", "T3"),
       ("assistant", "T4"), ("user", "T5")] := by
  have h := recent_history_oldest_first
    [⟨1, "u", "s", MessageRole.user, "T1", 1⟩,
     ⟨1, "u", "s", MessageRole.assistant, "T2", 2⟩,
     ⟨1, "u", "s", MessageRole.user, "T3", 3⟩,
     ⟨1, "u", "s", MessageRole.assistant, "T4", 4⟩,
     ⟨1, "u", "s", MessageRole.user, "T5", 5⟩] 1 "u" 10 (by decide)
  exact h.trans (by decide)

/-- C3 counterexample: a syntactically valid Telegram update whose
token matches no active bot is answered with HTTP 404
(`HTTPException`), not 200. -/
theorem telegram_webhook_404_counterexample :
    (telegramWebhookEndpoint (some (TgUpdateKind.message (some "Salom"))) false
        (Except.ok ())).status = 404 := by
  rfl

/-- C3 (amended): the payment-provider webhook endpoints always answer
HTTP 200 with a provider-shaped body for every parseable request
(PayMe keeps 400 for malformed JSON; Click answers even a malformed
form with 200 and `error` −8), and the Telegram message path answers
200 — but the Telegram endpoint answers 404 when the token matches no
active Telegram bot, and 400 for malformed JSON. -/
theorem webhook_status_payment_200_telegram_404 :
    (∀ (payload : List (String × PyVal)) (authOk : Bool) (nowMs : Int),
        (paymeWebhookEndpoint (some payload) authOk nowMs).status = 200) ∧
      (∀ (actionVal : Int) (secretKey : String)
          (formOpt : Option (List (String × String))),
        (clickWebhookEndpoint actionVal secretKey formOpt).status = 200) ∧
      (∀ (text : Option String) (answerCall : Except String Unit),
        (telegramWebhookEndpoint (some (TgUpdateKind.message text)) true
          answerCall).status = 200) ∧
      (∀ (upd : TgUpdateKind) (answerCall : Except String Unit),
        (telegramWebhookEndpoint (some upd) false answerCall).status = 404) ∧
      (∀ (botFound : Bool) (answerCall : Except String Unit),
        (telegramWebhookEndpoint Option.none botFound answerCall).status = 400) := by
  refine ⟨?_, ?_, ?_, ?_, ?_⟩
  · intro payload authOk nowMs
    cases authOk <;> rfl
  · intro actionVal secretKey formOpt
    cases formOpt with
    | none => rfl
    | some form =>
      cases hv : clickVerifyWebhook secretKey form (formGet form "sign_string") <;>
        simp [clickWebhookEndpoint, hv]
  · intro text answerCall
    rfl
  · intro upd answerCall
    rfl
  · intro botFound answerCall
    rfl

end BotFactory
